import Mathlib

/-!
# SPI loop-current utility (`transfer.c`): embedding and checked properties

The program is a single C file.  It parses command-line options into five
global variables, opens the spidev device, performs six configuration
control requests, builds a 2-byte frame from a loop-current setpoint and
sends it in one `SPI_IOC_MESSAGE(1)` request.

Embedding conventions

* C unsigned integers are `Nat` with an explicit `% 2^w` at every store.
* `int` results of system calls are `Int`.
* Everything the process does to the outside world is appended to a trace
  of `Event`s: calls of `printf`, `puts`, `perror`, `open`, `ioctl`, `close`.
  `printf` is recorded with its format string and its argument list; the
  formatting itself is libc's and is not evaluated.
* The device driver and the option parser of libc are inputs of the model:
  a `Driver` gives the result of each system call, and the list `opts`
  gives the successive results `(c, optarg)` of `getopt_long`.
-/

namespace SpiTransfer

/-! ## Data model -/

/-- An argument handed to `printf`. -/
inductive Arg where
  /-- An integer argument (`%d`, `%.2X`). -/
  | int (n : Int)
  /-- A string argument (`%s`). -/
  | str (s : String)
  /-- A float argument `(float)num / den` (`%.1f`). -/
  | quot (num den : Nat)
deriving DecidableEq, Repr

/-- The `struct spi_ioc_transfer` built at lines 72-78; `tx_buf` is recorded as
the content of the buffer it points to.  Fields not initialised are zero. -/
structure SpiIocTransfer where
  tx_buf : List Nat
  len : Nat
  delay_usecs : Nat
  speed_hz : Nat
  bits_per_word : Nat
deriving DecidableEq, Repr

/-- The control requests the program issues, each with the value of the
variable its third argument points to at the time of the call. -/
inductive Request where
  | WR_MODE (mode : Nat)
  | RD_MODE (mode : Nat)
  | WR_BITS_PER_WORD (bits : Nat)
  | RD_BITS_PER_WORD (bits : Nat)
  | WR_MAX_SPEED_HZ (speed : Nat)
  | RD_MAX_SPEED_HZ (speed : Nat)
  | MESSAGE (n : Nat) (tr : SpiIocTransfer)
deriving DecidableEq, Repr

/-- One observable action of the process. -/
inductive Event where
  | printf (fmt : String) (args : List Arg)
  | puts (s : String)
  | perror (s : String)
  /-- The call `open(path, O_RDWR)` and its result. -/
  | openDev (path : String) (ret : Int)
  /-- The call `ioctl(fd, req, ptr)` and its result. -/
  | ioctl (fd : Int) (req : Request) (ret : Int)
  | close (fd : Int)
deriving DecidableEq, Repr

/-- How the process ended: `exit(code)` / return from `main`, or `abort()`. -/
inductive Status where
  | exited (code : Int)
  | aborted
deriving DecidableEq, Repr

/-- A finished run of the process. -/
structure Run where
  trace : List Event
  status : Status
deriving DecidableEq, Repr

/-- The global variables of lines 32-36 together with the trace so far. -/
structure State where
  device : String
  mode : Nat
  bits : Nat
  speed : Nat
  delay : Nat
  trace : List Event
deriving DecidableEq, Repr

/-- The result of a `void` function: control returns to the caller, or the
process has terminated inside it. -/
inductive Step where
  | next (s : State)
  | stop (r : Run)
deriving DecidableEq, Repr

/-- The device driver as seen by the process.  `ioctl fd req` gives the
return value and, for the read requests, the value the driver stores through
the pointer.  Every request of a run differs from the others in its
constructor, so a driver with internal state is covered as well. -/
structure Driver where
  openDev : String → Int
  ioctl : Int → Request → Int × Nat

/-- Append events to the trace. -/
def State.emit (s : State) (es : List Event) : State :=
  { s with trace := s.trace ++ es }

/-- Lines 32-36: the initial values of the globals (`mode` and `delay` are
zero-initialised statics). -/
def init : State :=
  { device := "/dev/spidev1.0", mode := 0, bits := 8, speed := 500000, delay := 0,
    trace := [] }

/-! ## Constants of `linux/spi/spidev.h` -/

def SPI_CPHA : Nat := 0x01
def SPI_CPOL : Nat := 0x02
def SPI_CS_HIGH : Nat := 0x04
def SPI_LSB_FIRST : Nat := 0x08
def SPI_3WIRE : Nat := 0x10
def SPI_LOOP : Nat := 0x20
def SPI_NO_CS : Nat := 0x40
def SPI_READY : Nat := 0x80

/-! ## `pabort` (lines 26-30) -/

/-- Lines 26-30: `perror(s); abort();`. -/
def pabort (msg : String) (s : State) : Run :=
  { trace := s.trace ++ [Event.perror msg], status := Status.aborted }

/-! ## `transfer` (lines 38-93) -/

/-- What lines 46-70 produce: the final content of `value`, the calls of
`printf` made on the way, and the buffer `tx`. -/
structure Frame where
  value : Nat
  out : List Event
  tx : List Nat
deriving DecidableEq, Repr

/-- Lines 54-65: the clamp of `value`, with the diagnostic it prints. -/
def clamp (value : Nat) : Nat × List Event :=
  if value > 4000 then
    (4000, [Event.printf "**Resetting loop current to default maximum = %.1f mA\n\r"
              [Arg.quot 4000 200]])
  else if value < 800 then
    (800, [Event.printf "**Resetting loop current to default minimum = %.1f mA\n\r"
              [Arg.quot 800 200]])
  else
    (value, [])

/-- Lines 46-70 of `transfer`, with the initial content of `value` (200 in
the source) as the argument `setpoint`. -/
def transfer_tx (setpoint : Nat) : Frame :=
  -- uint16_t value = setpoint;
  let value := setpoint % 65536
  let out := [Event.printf "\n\rSetting loop current = %.1f mA\n\r" [Arg.quot value 10]]
  -- value *= 20;
  let value := (value * 20) % 65536
  let c := clamp value
  let value := c.1
  -- tx[0] = (value >> 8) & 0x0F;
  let tx0 := ((value >>> 8) &&& 0x0F) % 256
  -- tx[0] |= 0x30;
  let tx0 := (tx0 ||| 0x30) % 256
  -- tx[1] = value;
  let tx1 := value % 256
  { value := value, out := out ++ c.2, tx := [tx0, tx1] }

/-- Lines 85-90: the loop printing the bytes of `tx`, from index `ret`. -/
def print_tx : List Nat → Nat → List Event
  | [], _ => []
  | b :: bs, ret =>
    (if ret % 6 = 0 then [Event.puts ""] else [])
      ++ Event.printf "%.2X " [Arg.int b] :: print_tx bs (ret + 1)

/-- Lines 38-93: `transfer(fd)`, with the setpoint as an argument. -/
def transfer (setpoint : Nat) (drv : Driver) (fd : Int) (s : State) : Step :=
  let f := transfer_tx setpoint
  let s := s.emit f.out
  let tr : SpiIocTransfer :=
    { tx_buf := f.tx, len := f.tx.length, delay_usecs := s.delay,
      speed_hz := s.speed, bits_per_word := s.bits }
  let ret := (drv.ioctl fd (Request.MESSAGE 1 tr)).1
  let s := s.emit [Event.ioctl fd (Request.MESSAGE 1 tr) ret]
  if ret < 1 then
    Step.stop (pabort "can't send spi message" s)
  else
    let s := s.emit [Event.printf "\n\rSending:" []]
    let s := s.emit (print_tx f.tx 0)
    Step.next (s.emit [Event.puts ""])

/-! ## `print_usage` and `parse_opts` (lines 95-180) -/

/-- The text of the `puts` call at lines 98-107. -/
def usage_text : String :=
  "  -D --device   device to use (default /dev/spidev1.1)\n" ++
  "  -s --speed    max speed (Hz)\n" ++
  "  -d --delay    delay (usec)\n" ++
  "  -b --bpw      bits per word \n" ++
  "  -l --loop     loopback\n" ++
  "  -H --cpha     clock phase\n" ++
  "  -O --cpol     clock polarity\n" ++
  "  -L --lsb      least significant bit first\n" ++
  "  -C --cs-high  chip select active high\n" ++
  "  -3 --3wire    SI/SO signals shared\n"

/-- Lines 95-109: print the usage text and `exit(1)`. -/
def print_usage (prog : String) (s : State) : Run :=
  { trace := s.trace ++
      [Event.printf "Usage: %s [-DsbdlHOLC3]\n" [Arg.str prog], Event.puts usage_text],
    status := Status.exited 1 }

/-- The character constant `ch` as the `int` that `getopt_long` returns. -/
def code (ch : Char) : Int := (ch.toNat : Int)

/-- The white space `atoi` skips. -/
def isspace (ch : Char) : Bool :=
  ch.toNat = 32 || (9 ≤ ch.toNat && ch.toNat ≤ 13)

/-- The value of a run of decimal digits. -/
def digits (cs : List Char) : Nat :=
  (cs.takeWhile Char.isDigit).foldl (fun n ch => 10 * n + (ch.toNat - '0'.toNat)) 0

/-- The function `atoi` of libc: optional white space, an optional sign, then
decimal digits.  A value outside the range of `int` is undefined in C; the
model gives the mathematical value. -/
def atoi (str : String) : Int :=
  match str.toList.dropWhile isspace with
  | '-' :: ds => - (digits ds : Int)
  | '+' :: ds => (digits ds : Int)
  | ds => (digits ds : Int)

/-- Lines 111-180: `parse_opts`.  `opts` lists the results `(c, optarg)` of the
successive calls of `getopt_long`; the end of the list stands for the result
`-1`, which `getopt_long` gives once the arguments are used up. -/
def parse_opts (prog : String) : List (Int × String) → State → Step
  | [], s => Step.next s
  | (c, optarg) :: rest, s =>
    if c = -1 then Step.next s
    else if c = code 'D' then parse_opts prog rest { s with device := optarg }
    else if c = code 's' then
      parse_opts prog rest { s with speed := (atoi optarg % 4294967296).toNat }
    else if c = code 'd' then
      parse_opts prog rest { s with delay := (atoi optarg % 65536).toNat }
    else if c = code 'b' then
      parse_opts prog rest { s with bits := (atoi optarg % 256).toNat }
    else if c = code 'l' then parse_opts prog rest { s with mode := (s.mode ||| SPI_LOOP) % 256 }
    else if c = code 'H' then parse_opts prog rest { s with mode := (s.mode ||| SPI_CPHA) % 256 }
    else if c = code 'O' then parse_opts prog rest { s with mode := (s.mode ||| SPI_CPOL) % 256 }
    else if c = code 'L' then
      parse_opts prog rest { s with mode := (s.mode ||| SPI_LSB_FIRST) % 256 }
    else if c = code 'C' then
      parse_opts prog rest { s with mode := (s.mode ||| SPI_CS_HIGH) % 256 }
    else if c = code '3' then parse_opts prog rest { s with mode := (s.mode ||| SPI_3WIRE) % 256 }
    else if c = code 'N' then parse_opts prog rest { s with mode := (s.mode ||| SPI_NO_CS) % 256 }
    else if c = code 'R' then parse_opts prog rest { s with mode := (s.mode ||| SPI_READY) % 256 }
    else Step.stop (print_usage prog s)

/-! ## `main` (lines 182-235) -/

/-- Lines 182-235: `main`, with the setpoint of `transfer` as an argument. -/
def main_with (setpoint : Nat) (prog : String) (opts : List (Int × String)) (drv : Driver) :
    Run :=
  match parse_opts prog opts init with
  | Step.stop r => r
  | Step.next s =>
    let fd := drv.openDev s.device
    let s := s.emit [Event.openDev s.device fd]
    if fd < 0 then pabort "can't open device" s else
    let ret := (drv.ioctl fd (Request.WR_MODE s.mode)).1
    let s := s.emit [Event.ioctl fd (Request.WR_MODE s.mode) ret]
    if ret = -1 then pabort "can't set spi mode" s else
    let r := drv.ioctl fd (Request.RD_MODE s.mode)
    let ret := r.1
    let s := s.emit [Event.ioctl fd (Request.RD_MODE s.mode) ret]
    let s := { s with mode := r.2 % 256 }
    if ret = -1 then pabort "can't get spi mode" s else
    let ret := (drv.ioctl fd (Request.WR_BITS_PER_WORD s.bits)).1
    let s := s.emit [Event.ioctl fd (Request.WR_BITS_PER_WORD s.bits) ret]
    if ret = -1 then pabort "can't set bits per word" s else
    let r := drv.ioctl fd (Request.RD_BITS_PER_WORD s.bits)
    let ret := r.1
    let s := s.emit [Event.ioctl fd (Request.RD_BITS_PER_WORD s.bits) ret]
    let s := { s with bits := r.2 % 256 }
    if ret = -1 then pabort "can't get bits per word" s else
    let ret := (drv.ioctl fd (Request.WR_MAX_SPEED_HZ s.speed)).1
    let s := s.emit [Event.ioctl fd (Request.WR_MAX_SPEED_HZ s.speed) ret]
    if ret = -1 then pabort "can't set max speed hz" s else
    let r := drv.ioctl fd (Request.RD_MAX_SPEED_HZ s.speed)
    let ret := r.1
    let s := s.emit [Event.ioctl fd (Request.RD_MAX_SPEED_HZ s.speed) ret]
    let s := { s with speed := r.2 % 4294967296 }
    if ret = -1 then pabort "can't get max speed hz" s else
    let s := s.emit
      [Event.printf "spi mode: %d\n" [Arg.int s.mode],
       Event.printf "bits per word: %d\n" [Arg.int s.bits],
       Event.printf "max speed: %d Hz (%d KHz)\n"
         [Arg.int s.speed, Arg.int ((s.speed / 1000 : Nat) : Int)]]
    match transfer setpoint drv fd s with
    | Step.stop r => r
    | Step.next s =>
      { trace := s.trace ++ [Event.close fd], status := Status.exited ret }

/-- The program as shipped: line 46 sets `value = 200`. -/
def main (prog : String) (opts : List (Int × String)) (drv : Driver) : Run :=
  main_with 200 prog opts drv

/-- A driver on which every call succeeds and every read request gives back
the value written: descriptor 3, result 0 for the configuration requests,
the transfer length for the message. -/
def okDriver : Driver where
  openDev := fun _ => 3
  ioctl := fun _ req =>
    match req with
    | Request.WR_MODE m => (0, m)
    | Request.RD_MODE m => (0, m)
    | Request.WR_BITS_PER_WORD b => (0, b)
    | Request.RD_BITS_PER_WORD b => (0, b)
    | Request.WR_MAX_SPEED_HZ v => (0, v)
    | Request.RD_MAX_SPEED_HZ v => (0, v)
    | Request.MESSAGE _ tr => ((tr.len : Int), 0)

/-- Trace of a step result. -/
def Step.trace : Step → List Event
  | Step.next s => s.trace
  | Step.stop r => r.trace

/-- Whether the process was terminated by `abort()`. -/
def Step.aborted : Step → Bool
  | Step.next _ => false
  | Step.stop r => r.status == Status.aborted

/-- The transmit buffers of the transfer requests in a trace, in order. -/
def sent_frames (t : List Event) : List (List Nat) :=
  t.filterMap fun e =>
    match e with
    | Event.ioctl _ (Request.MESSAGE _ tr) _ => some tr.tx_buf
    | _ => none

/-- The request issued at line 80 for setpoint `S` in state `s`: the
structure of lines 72-78 with `len = ARRAY_SIZE(tx) = 2`. -/
def transfer_request (S : Nat) (s : State) : Request :=
  Request.MESSAGE 1
    { tx_buf := (transfer_tx S).tx, len := 2, delay_usecs := s.delay,
      speed_hz := s.speed, bits_per_word := s.bits }

/-- A driver like `okDriver` whose transfer request gives the result `r`. -/
def msgDriver (r : Int) : Driver where
  openDev := fun _ => 3
  ioctl := fun fd req =>
    match req with
    | Request.MESSAGE _ _ => (r, 0)
    | _ => okDriver.ioctl fd req

/-- A driver that reports one byte for the 2-byte transfer request. -/
def shortDriver : Driver := msgDriver 1

/-- A driver like `okDriver` on which reading back bits-per-word fails. -/
def failDriver : Driver where
  openDev := fun _ => 3
  ioctl := fun fd req =>
    match req with
    | Request.RD_BITS_PER_WORD _ => (-1, 0)
    | _ => okDriver.ioctl fd req

/-- The system calls on the device, without their arguments. -/
inductive Call where
  | openDev
  | wr_mode
  | rd_mode
  | wr_bits
  | rd_bits
  | wr_speed
  | rd_speed
  | message
  | close
deriving DecidableEq, Repr

/-- The device call an event records, if it is one. -/
def Event.call : Event → Option Call
  | Event.openDev _ _ => some Call.openDev
  | Event.ioctl _ (Request.WR_MODE _) _ => some Call.wr_mode
  | Event.ioctl _ (Request.RD_MODE _) _ => some Call.rd_mode
  | Event.ioctl _ (Request.WR_BITS_PER_WORD _) _ => some Call.wr_bits
  | Event.ioctl _ (Request.RD_BITS_PER_WORD _) _ => some Call.rd_bits
  | Event.ioctl _ (Request.WR_MAX_SPEED_HZ _) _ => some Call.wr_speed
  | Event.ioctl _ (Request.RD_MAX_SPEED_HZ _) _ => some Call.rd_speed
  | Event.ioctl _ (Request.MESSAGE _ _) _ => some Call.message
  | Event.close _ => some Call.close
  | _ => none

/-- The device calls of a trace, in order. -/
def calls (t : List Event) : List Call := t.filterMap Event.call

/-- The test the code applies to the result of a configuration step:
`fd < 0` after the open (line 190), `ret == -1` after each of the six control
requests (lines 197-223). -/
def config_failed : Event → Bool
  | Event.openDev _ ret => decide (ret < 0)
  | Event.ioctl _ (Request.WR_MODE _) ret => decide (ret = -1)
  | Event.ioctl _ (Request.RD_MODE _) ret => decide (ret = -1)
  | Event.ioctl _ (Request.WR_BITS_PER_WORD _) ret => decide (ret = -1)
  | Event.ioctl _ (Request.RD_BITS_PER_WORD _) ret => decide (ret = -1)
  | Event.ioctl _ (Request.WR_MAX_SPEED_HZ _) ret => decide (ret = -1)
  | Event.ioctl _ (Request.RD_MAX_SPEED_HZ _) ret => decide (ret = -1)
  | _ => false

/-- The string handed to `pabort` after each device call (lines 82, 191-224). -/
def context : Call → String
  | Call.openDev => "can't open device"
  | Call.wr_mode => "can't set spi mode"
  | Call.rd_mode => "can't get spi mode"
  | Call.wr_bits => "can't set bits per word"
  | Call.rd_bits => "can't get bits per word"
  | Call.wr_speed => "can't set max speed hz"
  | Call.rd_speed => "can't get max speed hz"
  | Call.message => "can't send spi message"
  | Call.close => ""

/-- The device calls of a complete run, in program order (lines 189-232). -/
def call_order : List Call :=
  [Call.openDev, Call.wr_mode, Call.rd_mode, Call.wr_bits, Call.rd_bits, Call.wr_speed,
   Call.rd_speed, Call.message, Call.close]

/-- The fail-fast discipline of a run: device calls come in program order; a
failed configuration step is followed by `perror` with the context of that
step and by nothing else, and the process aborts; a transfer request occurs
only when the seven configuration steps were made and none failed; and when
the device was opened and no step failed, the transfer request is issued. -/
def FailFast (r : Run) : Prop :=
  calls r.trace <+: call_order ∧
  (∀ e ∈ r.trace, config_failed e = true →
    r.status = Status.aborted ∧
    ∃ c, e.call = some c ∧ r.trace.reverse.take 2 = [Event.perror (context c), e]) ∧
  (Call.message ∈ calls r.trace →
    (∀ e ∈ r.trace, config_failed e = false) ∧ call_order.take 8 <+: calls r.trace) ∧
  ((∀ e ∈ r.trace, config_failed e = false) → Call.openDev ∈ calls r.trace →
    Call.message ∈ calls r.trace)

/-- The option characters `parse_opts` handles (the cases of its `switch`). -/
def known_codes : List Int :=
  [code 'D', code 's', code 'd', code 'b', code 'l', code 'H', code 'O', code 'L',
   code 'C', code '3', code 'N', code 'R']

/-- The option codes `getopt_long` reports before it returns `-1`. -/
def reported (opts : List (Int × String)) : List Int :=
  (opts.map Prod.fst).takeWhile (fun c => c ≠ -1)

/-- The eight mode flags with the bit each one stands for (lines 151-174). -/
def mode_bits : List (Int × Nat) :=
  [(code 'l', SPI_LOOP), (code 'H', SPI_CPHA), (code 'O', SPI_CPOL),
   (code 'L', SPI_LSB_FIRST), (code 'C', SPI_CS_HIGH), (code '3', SPI_3WIRE),
   (code 'N', SPI_NO_CS), (code 'R', SPI_READY)]

/-- The bitwise OR of the bits of the mode flags that occur in `cs`. -/
def or_of_present (cs : List Int) : Nat :=
  (if code 'l' ∈ cs then SPI_LOOP else 0) |||
  (if code 'H' ∈ cs then SPI_CPHA else 0) |||
  (if code 'O' ∈ cs then SPI_CPOL else 0) |||
  (if code 'L' ∈ cs then SPI_LSB_FIRST else 0) |||
  (if code 'C' ∈ cs then SPI_CS_HIGH else 0) |||
  (if code '3' ∈ cs then SPI_3WIRE else 0) |||
  (if code 'N' ∈ cs then SPI_NO_CS else 0) |||
  (if code 'R' ∈ cs then SPI_READY else 0)

/-! ## Arithmetic of the frame -/

theorem nibble_facts :
    ∀ x, x < 16 → (x ||| 48) &&& 15 = x ∧ (x ||| 48) >>> 4 = 3 ∧ (x ||| 48) < 256 := by
  decide

theorem and15_lt (x : Nat) : x &&& 15 < 16 :=
  Nat.and_lt_two_pow x (by norm_num : 15 < 2 ^ 4)

theorem tx0_eq (v : Nat) :
    (((v >>> 8) &&& 0x0F) % 256 ||| 0x30) % 256 = ((v >>> 8) &&& 0x0F) ||| 0x30 := by
  have h := and15_lt (v >>> 8)
  have h2 := (nibble_facts _ h).2.2
  rw [Nat.mod_eq_of_lt (by omega : (v >>> 8) &&& 15 < 256), Nat.mod_eq_of_lt h2]

theorem tx1_eq (v : Nat) : v % 256 = v &&& 0xFF := by
  exact (Nat.and_pow_two_sub_one_eq_mod v 8).symm

theorem transfer_tx_tx (S : Nat) :
    (transfer_tx S).tx =
      [(((transfer_tx S).value >>> 8) &&& 0x0F) ||| 0x30, (transfer_tx S).value &&& 0xFF] := by
  simp only [transfer_tx, tx0_eq]
  rw [tx1_eq]

theorem clamp_mid (v : Nat) (hlo : 800 ≤ v) (hhi : v ≤ 4000) : clamp v = (v, []) := by
  simp [clamp, Nat.not_lt.mpr hhi, Nat.not_lt.mpr hlo]

/-! ## The trace of `transfer` -/

theorem transfer_tx_length (S : Nat) : (transfer_tx S).tx.length = 2 := by
  simp [transfer_tx]

theorem transfer_fail (S : Nat) (drv : Driver) (fd : Int) (s : State)
    (h : (drv.ioctl fd (transfer_request S s)).1 < 1) :
    transfer S drv fd s = Step.stop
      { trace := s.trace ++ (transfer_tx S).out ++
          [Event.ioctl fd (transfer_request S s) (drv.ioctl fd (transfer_request S s)).1,
           Event.perror "can't send spi message"],
        status := Status.aborted } := by
  simp only [transfer_request] at h ⊢
  simp only [transfer, transfer_tx_length, State.emit, pabort]
  rw [if_pos h]
  simp

theorem transfer_ok (S : Nat) (drv : Driver) (fd : Int) (s : State)
    (h : 1 ≤ (drv.ioctl fd (transfer_request S s)).1) :
    transfer S drv fd s = Step.next
      { s with trace := s.trace ++ (transfer_tx S).out ++
          [Event.ioctl fd (transfer_request S s) (drv.ioctl fd (transfer_request S s)).1,
           Event.printf "\n\rSending:" []] ++ print_tx (transfer_tx S).tx 0 ++
          [Event.puts ""] } := by
  simp only [transfer_request] at h ⊢
  simp only [transfer, transfer_tx_length, State.emit]
  rw [if_neg (not_lt.mpr h)]
  simp

theorem sent_frames_append (t u : List Event) :
    sent_frames (t ++ u) = sent_frames t ++ sent_frames u := by
  simp [sent_frames]

theorem sent_frames_out (S : Nat) : sent_frames (transfer_tx S).out = [] := by
  simp only [transfer_tx, clamp]
  split_ifs <;> rfl

theorem sent_frames_print_tx (bs : List Nat) (i : Nat) : sent_frames (print_tx bs i) = [] := by
  induction bs generalizing i with
  | nil => rfl
  | cons b bs ih =>
    simp only [print_tx, sent_frames_append]
    rw [show ∀ e t, sent_frames (e :: t) = sent_frames [e] ++ sent_frames t from
      fun e t => sent_frames_append [e] t, ih]
    split_ifs <;> rfl

theorem transfer_sends (S : Nat) (drv : Driver) (fd : Int) (s : State) :
    sent_frames (transfer S drv fd s).trace = sent_frames s.trace ++ [(transfer_tx S).tx] := by
  by_cases h : (drv.ioctl fd (transfer_request S s)).1 < 1
  · rw [transfer_fail S drv fd s h]
    simp only [Step.trace, sent_frames_append, sent_frames_out]
    simp [sent_frames, transfer_request]
  · rw [transfer_ok S drv fd s (not_lt.mp h)]
    simp only [Step.trace, sent_frames_append, sent_frames_out, sent_frames_print_tx]
    simp [sent_frames, transfer_request]

theorem calls_append (t u : List Event) : calls (t ++ u) = calls t ++ calls u := by
  simp [calls]

theorem calls_out (S : Nat) : calls (transfer_tx S).out = [] := by
  simp only [transfer_tx, clamp]
  split_ifs <;> rfl

theorem calls_print_tx (bs : List Nat) (i : Nat) : calls (print_tx bs i) = [] := by
  induction bs generalizing i with
  | nil => rfl
  | cons b bs ih =>
    simp only [print_tx, calls_append]
    rw [show ∀ e t, calls (e :: t) = calls [e] ++ calls t from
      fun e t => calls_append [e] t, ih]
    split_ifs <;> rfl

/-! ## Claims about the frame (lines 46-70) -/

/-- C1: for every setpoint `S` with `800 ≤ S*20 ≤ 4000`, `transfer` does not
clamp (`value` stays `S*20` and only the "Setting loop current" line is
printed), the buffer is `tx[0] = (((S*20) >> 8) & 0x0F) | 0x30`,
`tx[1] = (S*20) & 0xFF`, and that buffer is the one `transfer` sends. -/
theorem C1_frame_unclamped (S : Nat) (hlo : 800 ≤ S * 20) (hhi : S * 20 ≤ 4000) :
    (transfer_tx S).value = S * 20 ∧
    (transfer_tx S).out =
      [Event.printf "\n\rSetting loop current = %.1f mA\n\r" [Arg.quot S 10]] ∧
    (transfer_tx S).tx = [(((S * 20) >>> 8) &&& 0x0F) ||| 0x30, (S * 20) &&& 0xFF] ∧
    ∀ (drv : Driver) (fd : Int) (s : State),
      sent_frames (transfer S drv fd s).trace =
        sent_frames s.trace ++ [[(((S * 20) >>> 8) &&& 0x0F) ||| 0x30, (S * 20) &&& 0xFF]] := by
  have hS : S % 65536 = S := Nat.mod_eq_of_lt (by omega)
  have hv : (S * 20) % 65536 = S * 20 := Nat.mod_eq_of_lt (by omega)
  have hval : (transfer_tx S).value = S * 20 := by
    simp only [transfer_tx, hS, hv, clamp_mid _ hlo hhi]
  have htx : (transfer_tx S).tx =
      [(((S * 20) >>> 8) &&& 0x0F) ||| 0x30, (S * 20) &&& 0xFF] := by
    rw [transfer_tx_tx, hval]
  refine ⟨hval, ?_, htx, ?_⟩
  · simp only [transfer_tx, hS, hv, clamp_mid _ hlo hhi, List.append_nil]
  · intro drv fd s
    rw [transfer_sends, htx]

/-- C1 at `S = 100`: scaled value 2000 = 0x7D0, frame (0x37, 0xD0). -/
theorem C1_frame_unclamped_witness :
    (transfer_tx 100).value = 100 * 20 ∧
    (transfer_tx 100).out =
      [Event.printf "\n\rSetting loop current = %.1f mA\n\r" [Arg.quot 100 10]] ∧
    (transfer_tx 100).tx = [0x37, 0xD0] ∧
    ∀ (drv : Driver) (fd : Int) (s : State),
      sent_frames (transfer 100 drv fd s).trace = sent_frames s.trace ++ [[0x37, 0xD0]] :=
  C1_frame_unclamped 100 (by decide) (by decide)

theorem clamp_fst (v : Nat) : (clamp v).1 = min (max v 800) 4000 := by
  unfold clamp
  split_ifs with h1 h2
  · show 4000 = _
    omega
  · show 800 = _
    omega
  · show v = _
    omega

theorem transfer_tx_value (S : Nat) :
    (transfer_tx S).value = min (max ((S % 65536 * 20) % 65536) 800) 4000 := by
  simp only [transfer_tx, clamp_fst]

theorem clamp_high (v : Nat) (h : 4000 < v) :
    clamp v = (4000, [Event.printf "**Resetting loop current to default maximum = %.1f mA\n\r"
      [Arg.quot 4000 200]]) := by
  simp [clamp, h]

theorem clamp_low (v : Nat) (h : v < 800) :
    clamp v = (800, [Event.printf "**Resetting loop current to default minimum = %.1f mA\n\r"
      [Arg.quot 800 200]]) := by
  have h2 : ¬ v > 4000 := by omega
  simp [clamp, h, h2]

/-- C2 (as stated, refuted): the shipped setpoint 200 is scaled to 4000, but
the high byte of the frame is not 0x30. -/
theorem C2_counterexample :
    (transfer_tx 200).value = 4000 ∧ (transfer_tx 200).tx ≠ [0x30, 0xA0] := by
  decide

/-- C2 (amended): with the shipped setpoint 200, `transfer` scales to 4000, no
clamp diagnostic is printed, and the frame built and sent is high byte 0x3F,
low byte 0xA0; a run of `main` on a driver that accepts every call sends
exactly that frame. -/
theorem C2_shipped_frame :
    (transfer_tx 200).value = 4000 ∧
    (transfer_tx 200).out =
      [Event.printf "\n\rSetting loop current = %.1f mA\n\r" [Arg.quot 200 10]] ∧
    (transfer_tx 200).tx = [0x3F, 0xA0] ∧
    (∀ (drv : Driver) (fd : Int) (s : State),
      sent_frames (transfer 200 drv fd s).trace = sent_frames s.trace ++ [[0x3F, 0xA0]]) ∧
    sent_frames (main "transfer" [] okDriver).trace = [[0x3F, 0xA0]] := by
  refine ⟨by decide, by decide, by decide, ?_, by decide⟩
  intro drv fd s
  rw [transfer_sends]
  rfl

/-- C3 (as stated, refuted): at `S = 201` the scaled value 4020 exceeds 4000
and is clamped to 4000, but the frame is not (0x30, 0xA0); and at `S = 3277`
the product `S*20 = 65540` exceeds 4000 while the 16-bit `value` is 4, which
is clamped to 800, not to 4000. -/
theorem C3_counterexample :
    (201 < 65536 ∧ 201 * 20 > 4000 ∧ (transfer_tx 201).value = 4000 ∧
      (transfer_tx 201).tx ≠ [0x30, 0xA0]) ∧
    (3277 < 65536 ∧ 3277 * 20 > 4000 ∧ (transfer_tx 3277).value = 800) := by
  decide

/-- C3 (amended): for every 16-bit setpoint `S` whose scaled value as the code
computes it, `(S*20) mod 2^16`, exceeds 4000, `value` is clamped to 4000, the
frame built and sent is (0x3F, 0xA0), and the clamp-to-maximum diagnostic is
printed after the "Setting loop current" line. -/
theorem C3_clamp_max (S : Nat) (hS : S < 65536) (h : 4000 < (S * 20) % 65536) :
    (transfer_tx S).value = 4000 ∧
    (transfer_tx S).tx = [0x3F, 0xA0] ∧
    (transfer_tx S).out =
      [Event.printf "\n\rSetting loop current = %.1f mA\n\r" [Arg.quot S 10],
       Event.printf "**Resetting loop current to default maximum = %.1f mA\n\r"
         [Arg.quot 4000 200]] ∧
    ∀ (drv : Driver) (fd : Int) (s : State),
      sent_frames (transfer S drv fd s).trace = sent_frames s.trace ++ [[0x3F, 0xA0]] := by
  have hS2 : S % 65536 = S := Nat.mod_eq_of_lt hS
  have hval : (transfer_tx S).value = 4000 := by
    simp only [transfer_tx, hS2, clamp_high _ h]
  have htx : (transfer_tx S).tx = [0x3F, 0xA0] := by
    rw [transfer_tx_tx, hval]
    rfl
  refine ⟨hval, htx, ?_, ?_⟩
  · simp only [transfer_tx, hS2, clamp_high _ h]
    rfl
  · intro drv fd s
    rw [transfer_sends, htx]

/-- C3 (amended) at `S = 201`: scaled value 4020, clamped to 4000. -/
theorem C3_clamp_max_witness :
    (transfer_tx 201).value = 4000 ∧
    (transfer_tx 201).tx = [0x3F, 0xA0] ∧
    (transfer_tx 201).out =
      [Event.printf "\n\rSetting loop current = %.1f mA\n\r" [Arg.quot 201 10],
       Event.printf "**Resetting loop current to default maximum = %.1f mA\n\r"
         [Arg.quot 4000 200]] ∧
    ∀ (drv : Driver) (fd : Int) (s : State),
      sent_frames (transfer 201 drv fd s).trace = sent_frames s.trace ++ [[0x3F, 0xA0]] :=
  C3_clamp_max 201 (by decide) (by decide)

/-- C4 (as stated, refuted): at `S = 0` the scaled value 0 is below 800 and is
clamped to 800, but the frame is not (0x30, 0x20). -/
theorem C4_counterexample :
    0 < 65536 ∧ 0 * 20 < 800 ∧ (transfer_tx 0).value = 800 ∧
      (transfer_tx 0).tx ≠ [0x30, 0x20] := by
  decide

/-- C4 (amended): for every 16-bit setpoint `S` whose scaled value `S*20` is
below 800, `value` is clamped to 800, the frame built and sent is
(0x33, 0x20), and the clamp-to-minimum diagnostic is printed after the
"Setting loop current" line. -/
theorem C4_clamp_min (S : Nat) (hS : S < 65536) (h : S * 20 < 800) :
    (transfer_tx S).value = 800 ∧
    (transfer_tx S).tx = [0x33, 0x20] ∧
    (transfer_tx S).out =
      [Event.printf "\n\rSetting loop current = %.1f mA\n\r" [Arg.quot S 10],
       Event.printf "**Resetting loop current to default minimum = %.1f mA\n\r"
         [Arg.quot 800 200]] ∧
    ∀ (drv : Driver) (fd : Int) (s : State),
      sent_frames (transfer S drv fd s).trace = sent_frames s.trace ++ [[0x33, 0x20]] := by
  have hS2 : S % 65536 = S := Nat.mod_eq_of_lt hS
  have hv : (S * 20) % 65536 = S * 20 := Nat.mod_eq_of_lt (by omega)
  have hval : (transfer_tx S).value = 800 := by
    simp only [transfer_tx, hS2, hv, clamp_low _ h]
  have htx : (transfer_tx S).tx = [0x33, 0x20] := by
    rw [transfer_tx_tx, hval]
    rfl
  refine ⟨hval, htx, ?_, ?_⟩
  · simp only [transfer_tx, hS2, hv, clamp_low _ h]
    rfl
  · intro drv fd s
    rw [transfer_sends, htx]

/-- C4 (amended) at `S = 39`: scaled value 780, clamped to 800. -/
theorem C4_clamp_min_witness :
    (transfer_tx 39).value = 800 ∧
    (transfer_tx 39).tx = [0x33, 0x20] ∧
    (transfer_tx 39).out =
      [Event.printf "\n\rSetting loop current = %.1f mA\n\r" [Arg.quot 39 10],
       Event.printf "**Resetting loop current to default minimum = %.1f mA\n\r"
         [Arg.quot 800 200]] ∧
    ∀ (drv : Driver) (fd : Int) (s : State),
      sent_frames (transfer 39 drv fd s).trace = sent_frames s.trace ++ [[0x33, 0x20]] :=
  C4_clamp_min 39 (by decide) (by decide)

/-- C10: for every 16-bit setpoint `S`, wrapping included, the buffer is two
bytes `tx0, tx1` whose 12-bit payload `(tx0 & 0x0F) * 256 + tx1` equals the
clamped value `min (max ((S*20) mod 65536) 800) 4000`, which lies in 800..4000,
and the upper nibble of `tx0` is 0x3. -/
theorem C10_payload_lossless (S : Nat) (hS : S < 65536) :
    ∃ tx0 tx1, (transfer_tx S).tx = [tx0, tx1] ∧ tx0 < 256 ∧ tx1 < 256 ∧
      (tx0 &&& 0x0F) * 256 + tx1 = min (max ((S * 20) % 65536) 800) 4000 ∧
      (transfer_tx S).value = min (max ((S * 20) % 65536) 800) 4000 ∧
      800 ≤ (tx0 &&& 0x0F) * 256 + tx1 ∧ (tx0 &&& 0x0F) * 256 + tx1 ≤ 4000 ∧
      tx0 >>> 4 = 0x3 ∧ tx0 &&& 0xF0 = 0x30 := by
  have hS2 : S % 65536 = S := Nat.mod_eq_of_lt hS
  have hval := transfer_tx_value S
  rw [hS2] at hval
  generalize hv : min (max ((S * 20) % 65536) 800) 4000 = v at hval ⊢
  have hv1 : 800 ≤ v := by omega
  have hv2 : v ≤ 4000 := by omega
  have hx : (v >>> 8) &&& 0x0F = v / 256 := by
    rw [Nat.shiftRight_eq_div_pow]
    have := Nat.and_pow_two_sub_one_eq_mod (v / 2 ^ 8) 4
    norm_num at this ⊢
    rw [this]
    omega
  have hlt : v / 256 < 16 := by omega
  obtain ⟨n1, n2, n3⟩ := nibble_facts (v / 256) hlt
  have n4 : (v / 256 ||| 48) &&& 0xF0 = 0x30 := by
    revert hlt
    generalize v / 256 = x
    revert x
    decide
  refine ⟨(v / 256) ||| 0x30, v % 256, ?_, n3, by omega, ?_, hval, ?_, ?_, n2, n4⟩
  · rw [transfer_tx_tx, hval, hx, tx1_eq]
  · rw [n1]
    omega
  · rw [n1]
    omega
  · rw [n1]
    omega

/-- C10 at `S = 3277`, where `S*20 = 65540` wraps to 4. -/
theorem C10_payload_lossless_witness :
    ∃ tx0 tx1, (transfer_tx 3277).tx = [tx0, tx1] ∧ tx0 < 256 ∧ tx1 < 256 ∧
      (tx0 &&& 0x0F) * 256 + tx1 = min (max ((3277 * 20) % 65536) 800) 4000 ∧
      (transfer_tx 3277).value = min (max ((3277 * 20) % 65536) 800) 4000 ∧
      800 ≤ (tx0 &&& 0x0F) * 256 + tx1 ∧ (tx0 &&& 0x0F) * 256 + tx1 ≤ 4000 ∧
      tx0 >>> 4 = 0x3 ∧ tx0 &&& 0xF0 = 0x30 :=
  C10_payload_lossless 3277 (by decide)

/-! ## Claim about the result of the transfer request (lines 72-93) -/

/-- C5 (as stated, refuted): a driver that reports 1 byte for the 2-byte
request does not make the program abort; the bytes are printed and `main`
returns 0. -/
theorem C5_counterexample :
    (shortDriver.ioctl 3 (transfer_request 200 init)).1 = 1 ∧
    (transfer 200 shortDriver 3 init).aborted = false ∧
    Event.printf "\n\rSending:" [] ∈ (transfer 200 shortDriver 3 init).trace ∧
    (main "transfer" [] shortDriver).status = Status.exited 0 := by
  decide

/-- C5 (amended): `transfer` issues exactly one transfer request, of length 2
and carrying the frame; if its result `r` is less than 1 the process aborts
with context "can't send spi message" and prints no bytes; if `r ≥ 1`, which
includes `r = 1`, the two bytes are printed and `transfer` returns. -/
theorem C5_transfer_result (S : Nat) (drv : Driver) (fd : Int) (s : State) :
    (∃ tr, transfer_request S s = Request.MESSAGE 1 tr ∧ tr.len = 2 ∧
        tr.tx_buf = (transfer_tx S).tx) ∧
    calls (transfer S drv fd s).trace = calls s.trace ++
      [Call.message] ∧
    ((drv.ioctl fd (transfer_request S s)).1 < 1 →
      transfer S drv fd s = Step.stop
        { trace := s.trace ++ (transfer_tx S).out ++
            [Event.ioctl fd (transfer_request S s) (drv.ioctl fd (transfer_request S s)).1,
             Event.perror "can't send spi message"],
          status := Status.aborted }) ∧
    (1 ≤ (drv.ioctl fd (transfer_request S s)).1 →
      ∃ tx0 tx1, (transfer_tx S).tx = [tx0, tx1] ∧
      transfer S drv fd s = Step.next
        { s with trace := s.trace ++ (transfer_tx S).out ++
            [Event.ioctl fd (transfer_request S s) (drv.ioctl fd (transfer_request S s)).1,
             Event.printf "\n\rSending:" [],
             Event.puts "",
             Event.printf "%.2X " [Arg.int tx0],
             Event.printf "%.2X " [Arg.int tx1],
             Event.puts ""] }) := by
  refine ⟨⟨_, rfl, rfl, rfl⟩, ?_, fun h => transfer_fail S drv fd s h, fun h => ?_⟩
  · by_cases h : (drv.ioctl fd (transfer_request S s)).1 < 1
    · rw [transfer_fail S drv fd s h]
      simp only [Step.trace, calls_append, calls_out]
      simp [calls, Event.call, transfer_request]
    · rw [transfer_ok S drv fd s (not_lt.mp h)]
      simp only [Step.trace, calls_append, calls_out, calls_print_tx]
      simp [calls, Event.call, transfer_request]
  · refine ⟨_, _, transfer_tx_tx S, ?_⟩
    rw [transfer_ok S drv fd s h, transfer_tx_tx S]
    simp [print_tx, transfer_request]

/-- C5 (amended) on a driver whose transfer result is 0 (abort) and on one
whose result is 1 (bytes printed, normal return). -/
theorem C5_transfer_result_witness :
    transfer 200 (msgDriver 0) 3 init = Step.stop
      { trace := init.trace ++ (transfer_tx 200).out ++
          [Event.ioctl 3 (transfer_request 200 init)
             ((msgDriver 0).ioctl 3 (transfer_request 200 init)).1,
           Event.perror "can't send spi message"],
        status := Status.aborted } ∧
    ∃ tx0 tx1, (transfer_tx 200).tx = [tx0, tx1] ∧
      transfer 200 (msgDriver 1) 3 init = Step.next
        { init with trace := init.trace ++ (transfer_tx 200).out ++
            [Event.ioctl 3 (transfer_request 200 init)
               ((msgDriver 1).ioctl 3 (transfer_request 200 init)).1,
             Event.printf "\n\rSending:" [],
             Event.puts "",
             Event.printf "%.2X " [Arg.int tx0],
             Event.printf "%.2X " [Arg.int tx1],
             Event.puts ""] } :=
  ⟨(C5_transfer_result 200 (msgDriver 0) 3 init).2.2.1 (by decide),
   (C5_transfer_result 200 (msgDriver 1) 3 init).2.2.2 (by decide)⟩

/-! ## Claims about `parse_opts` (lines 111-180) -/

theorem code_vals :
    code 'D' = 68 ∧ code 's' = 115 ∧ code 'd' = 100 ∧ code 'b' = 98 ∧ code 'l' = 108 ∧
    code 'H' = 72 ∧ code 'O' = 79 ∧ code 'L' = 76 ∧ code 'C' = 67 ∧ code '3' = 51 ∧
    code 'N' = 78 ∧ code 'R' = 82 := by
  decide

theorem known_code_step (prog : String) :
    ∀ c ∈ known_codes, ∀ (optarg : String) (rest : List (Int × String)) (s : State),
      ∃ s1 : State, parse_opts prog ((c, optarg) :: rest) s = parse_opts prog rest s1 ∧
        s1.trace = s.trace := by
  obtain ⟨hD, hs, hd, hb, hl, hH, hO, hL, hC, h3, hN, hR⟩ := code_vals
  simp only [known_codes, List.forall_mem_cons, hD, hs, hd, hb, hl, hH, hO, hL, hC, h3, hN, hR]
  repeat' constructor
  all_goals first
    | (intro x hx
       exact absurd hx (List.not_mem_nil x))
    | (intro optarg rest s
       simp only [parse_opts, hD, hs, hd, hb, hl, hH, hO, hL, hC, h3, hN, hR]
       norm_num
       exact ⟨_, rfl, rfl⟩)

theorem unknown_code_step (prog : String) (c : Int) (optarg : String)
    (rest : List (Int × String)) (s : State) (hc : c ≠ -1) (hk : c ∉ known_codes) :
    parse_opts prog ((c, optarg) :: rest) s = Step.stop (print_usage prog s) := by
  obtain ⟨hD, hs, hd, hb, hl, hH, hO, hL, hC, h3, hN, hR⟩ := code_vals
  simp only [known_codes, hD, hs, hd, hb, hl, hH, hO, hL, hC, h3, hN, hR,
    List.mem_cons, List.mem_singleton, List.not_mem_nil, or_false, not_or] at hk
  simp [parse_opts, hD, hs, hd, hb, hl, hH, hO, hL, hC, h3, hN, hR, hc, hk]

theorem parse_opts_cons_cases (prog : String) (c : Int) (optarg : String)
    (rest : List (Int × String)) (s : State) :
    (c = -1 ∧ parse_opts prog ((c, optarg) :: rest) s = Step.next s) ∨
    (c ≠ -1 ∧ c ∈ known_codes ∧
      ∃ s1 : State, parse_opts prog ((c, optarg) :: rest) s = parse_opts prog rest s1 ∧
        s1.trace = s.trace) ∨
    (c ≠ -1 ∧ c ∉ known_codes ∧
      parse_opts prog ((c, optarg) :: rest) s = Step.stop (print_usage prog s)) := by
  by_cases hc : c = -1
  · left
    subst hc
    exact ⟨rfl, by simp [parse_opts]⟩
  · right
    by_cases hk : c ∈ known_codes
    · exact Or.inl ⟨hc, hk, known_code_step prog c hk optarg rest s⟩
    · exact Or.inr ⟨hc, hk, unknown_code_step prog c optarg rest s hc hk⟩

theorem parse_opts_unknown (prog : String) (opts : List (Int × String)) :
    ∀ (t : List Event) (s : State), s.trace = t → (∃ c ∈ reported opts, c ∉ known_codes) →
      ∃ s1 : State, s1.trace = t ∧
        parse_opts prog opts s = Step.stop (print_usage prog s1) := by
  induction opts with
  | nil =>
    intro t s _ h
    simp [reported] at h
  | cons p rest ih =>
    obtain ⟨c, optarg⟩ := p
    intro t s ht h
    rcases parse_opts_cons_cases prog c optarg rest s with
      ⟨hc, _⟩ | ⟨hc, hk, s1, hstep, ht1⟩ | ⟨_, _, hstop⟩
    · subst hc
      simp [reported] at h
    · have hrep : reported ((c, optarg) :: rest) = c :: reported rest := by
        simp [reported, List.takeWhile_cons, hc]
      rw [hrep] at h
      obtain ⟨x, hx, hxk⟩ := h
      rcases List.mem_cons.mp hx with rfl | hx
      · exact absurd hk hxk
      · rw [hstep]
        exact ih t s1 (ht1.trans ht) ⟨x, hx, hxk⟩
    · exact ⟨s, ht, hstop⟩

/-- C7: whenever the option parser reports, before its final `-1`, an option
code that is not one of D, s, d, b, l, H, O, L, C, 3, N, R, the run of `main`
consists of the two usage prints followed by `exit(1)`: no device call (open,
control request, transfer, close) is made. -/
theorem C7_unknown_option (prog : String) (opts : List (Int × String)) (drv : Driver)
    (h : ∃ c ∈ reported opts, c ∉ known_codes) :
    main prog opts drv =
      { trace := [Event.printf "Usage: %s [-DsbdlHOLC3]\n" [Arg.str prog],
                  Event.puts usage_text],
        status := Status.exited 1 } ∧
    calls (main prog opts drv).trace = [] := by
  obtain ⟨s1, hs1, hp⟩ := parse_opts_unknown prog opts [] init rfl h
  have hm : main prog opts drv =
      { trace := [Event.printf "Usage: %s [-DsbdlHOLC3]\n" [Arg.str prog],
                  Event.puts usage_text],
        status := Status.exited 1 } := by
    simp only [main, main_with, hp, print_usage, hs1]
    rfl
  refine ⟨hm, ?_⟩
  rw [hm]
  rfl

/-- C7 on the option results `l`, `?`, `H`: usage and `exit(1)`, no device call. -/
theorem C7_unknown_option_witness :
    main "transfer" [(code 'l', ""), (code '?', ""), (code 'H', "")] okDriver =
      { trace := [Event.printf "Usage: %s [-DsbdlHOLC3]\n" [Arg.str "transfer"],
                  Event.puts usage_text],
        status := Status.exited 1 } ∧
    calls (main "transfer" [(code 'l', ""), (code '?', ""), (code 'H', "")] okDriver).trace
      = [] :=
  C7_unknown_option "transfer" [(code 'l', ""), (code '?', ""), (code 'H', "")] okDriver
    ⟨code '?', by decide, by decide⟩

theorem ite_or_lor (p q : Prop) [Decidable p] [Decidable q] (n : Nat) :
    (if p ∨ q then n else 0) = (if p then n else 0) ||| (if q then n else 0) := by
  by_cases hp : p <;> by_cases hq : q <;> simp [hp, hq]

theorem or_of_present_split (c : Int) (cs : List Int) :
    or_of_present (c :: cs) = or_of_present [c] ||| or_of_present cs := by
  simp only [or_of_present, List.mem_cons, List.not_mem_nil, or_false, ite_or_lor]
  ac_rfl

theorem or_of_present_single : ∀ p ∈ mode_bits, or_of_present [p.1] = p.2 := by
  decide

theorem or_of_present_cons (c : Int) (bit : Nat) (cs : List Int) (h : (c, bit) ∈ mode_bits) :
    or_of_present (c :: cs) = bit ||| or_of_present cs := by
  rw [or_of_present_split, or_of_present_single (c, bit) h]

theorem mode_flag_step (prog : String) :
    ∀ p ∈ mode_bits, ∀ (optarg : String) (rest : List (Int × String)) (s : State),
      parse_opts prog ((p.1, optarg) :: rest) s =
        parse_opts prog rest { s with mode := (s.mode ||| p.2) % 256 } := by
  obtain ⟨hD, hs, hd, hb, hl, hH, hO, hL, hC, h3, hN, hR⟩ := code_vals
  simp only [mode_bits, List.forall_mem_cons, hl, hH, hO, hL, hC, h3, hN, hR]
  repeat' constructor
  all_goals first
    | (intro x hx
       exact absurd hx (List.not_mem_nil x))
    | (intro optarg rest s
       simp only [parse_opts, hD, hs, hd, hb, hl, hH, hO, hL, hC, h3, hN, hR]
       norm_num)

theorem mode_bits_lt : ∀ p ∈ mode_bits, p.2 < 256 := by
  decide

theorem parse_opts_mode_flags (prog : String) (opts : List (Int × String))
    (h : ∀ p ∈ opts, p.1 ∈ mode_bits.map Prod.fst) :
    ∀ s : State, s.mode < 256 →
      parse_opts prog opts s =
        Step.next { s with mode := s.mode ||| or_of_present (opts.map Prod.fst) } := by
  obtain ⟨hD, hs, hd, hb, hl, hH, hO, hL, hC, h3, hN, hR⟩ := code_vals
  induction opts with
  | nil =>
    intro s _
    have h0 : or_of_present [] = 0 := by decide
    simp [parse_opts, h0]
  | cons p rest ih =>
    obtain ⟨c, optarg⟩ := p
    intro s hs256
    have hrest : ∀ p ∈ rest, p.1 ∈ mode_bits.map Prod.fst :=
      fun p hp => h p (List.mem_cons_of_mem _ hp)
    have hc : c ∈ mode_bits.map Prod.fst := h (c, optarg) (List.mem_cons_self _ _)
    obtain ⟨⟨c1, bit⟩, hmem, hc1⟩ := List.mem_map.mp hc
    simp only at hc1
    subst hc1
    have hcons := or_of_present_cons c1 bit (rest.map Prod.fst) hmem
    have hbit : bit < 256 := mode_bits_lt (c1, bit) hmem
    have hor : s.mode ||| bit < 256 := Nat.or_lt_two_pow (n := 8) hs256 hbit
    have hstep : parse_opts prog ((c1, optarg) :: rest) s =
        parse_opts prog rest { s with mode := (s.mode ||| bit) % 256 } :=
      mode_flag_step prog (c1, bit) hmem optarg rest s
    rw [hstep, ih hrest _ (Nat.mod_lt _ (by norm_num))]
    simp only [List.map_cons, hcons, Nat.mod_eq_of_lt hor, Nat.lor_assoc]

/-- C8: for every sequence of mode flags drawn from -l, -H, -O, -L, -C, -3, -N,
-R, `parse_opts` started from the initial globals (mode 0) returns with only
`mode` changed, to the bitwise OR of the bits of the flags present; a single
flag gives exactly its own bit; two sequences with the same set of flags give
the same result, whatever the order and repetition; and -l -H gives
`SPI_LOOP | SPI_CPHA`. -/
theorem C8_mode_flags (prog : String) (opts : List (Int × String))
    (h : ∀ p ∈ opts, p.1 ∈ mode_bits.map Prod.fst) :
    parse_opts prog opts init =
      Step.next { init with mode := or_of_present (opts.map Prod.fst) } ∧
    (∀ (c : Int) (bit : Nat) (optarg : String), (c, bit) ∈ mode_bits →
      parse_opts prog [(c, optarg)] init = Step.next { init with mode := bit }) ∧
    (∀ opts2 : List (Int × String), (∀ p ∈ opts2, p.1 ∈ mode_bits.map Prod.fst) →
      (∀ c, c ∈ opts2.map Prod.fst ↔ c ∈ opts.map Prod.fst) →
      parse_opts prog opts2 init = parse_opts prog opts init) ∧
    (∀ a b : String, parse_opts prog [(code 'l', a), (code 'H', b)] init =
      Step.next { init with mode := SPI_LOOP ||| SPI_CPHA }) := by
  have h0 : init.mode < 256 := by decide
  have hz : ∀ n : Nat, init.mode ||| n = n := fun n => Nat.zero_or n
  have hparse : ∀ o : List (Int × String), (∀ p ∈ o, p.1 ∈ mode_bits.map Prod.fst) →
      parse_opts prog o init = Step.next { init with mode := or_of_present (o.map Prod.fst) } := by
    intro o ho
    rw [parse_opts_mode_flags prog o ho init h0, hz]
  refine ⟨hparse opts h, ?_, ?_, ?_⟩
  · intro c bit optarg hmem
    have hm : ∀ p ∈ [(c, optarg)], p.1 ∈ mode_bits.map Prod.fst := by
      intro p hp
      rw [List.mem_singleton.mp hp]
      exact List.mem_map.mpr ⟨(c, bit), hmem, rfl⟩
    rw [hparse _ hm]
    have := or_of_present_cons c bit [] hmem
    have h0 : or_of_present [] = 0 := by decide
    simp only [List.map_cons, List.map_nil, this, h0, Nat.or_zero]
  · intro opts2 h2 hsame
    rw [hparse _ h2, hparse _ h]
    simp only [or_of_present, hsame]
  · intro a b
    have hm : ∀ p ∈ [(code 'l', a), (code 'H', b)], p.1 ∈ mode_bits.map Prod.fst := by
      intro p hp
      simp only [List.mem_cons, List.mem_singleton, List.not_mem_nil, or_false] at hp
      rcases hp with rfl | rfl
      · exact List.mem_map.mpr ⟨(code 'l', SPI_LOOP), by decide, rfl⟩
      · exact List.mem_map.mpr ⟨(code 'H', SPI_CPHA), by decide, rfl⟩
    rw [hparse _ hm]
    have : or_of_present [code 'l', code 'H'] = SPI_LOOP ||| SPI_CPHA := by decide
    simp only [List.map_cons, List.map_nil, this]

/-- C8 on the flags -H -l -H: mode 0x21. -/
theorem C8_mode_flags_witness :
    parse_opts "transfer" [(code 'H', ""), (code 'l', ""), (code 'H', "")] init =
      Step.next { init with mode := 0x21 } ∧
    (∀ (c : Int) (bit : Nat) (optarg : String), (c, bit) ∈ mode_bits →
      parse_opts "transfer" [(c, optarg)] init = Step.next { init with mode := bit }) ∧
    (∀ opts2 : List (Int × String), (∀ p ∈ opts2, p.1 ∈ mode_bits.map Prod.fst) →
      (∀ c, c ∈ opts2.map Prod.fst ↔
        c ∈ [(code 'H', ""), (code 'l', ""), (code 'H', "")].map Prod.fst) →
      parse_opts "transfer" opts2 init =
        parse_opts "transfer" [(code 'H', ""), (code 'l', ""), (code 'H', "")] init) ∧
    (∀ a b : String, parse_opts "transfer" [(code 'l', a), (code 'H', b)] init =
      Step.next { init with mode := SPI_LOOP ||| SPI_CPHA }) :=
  C8_mode_flags "transfer" [(code 'H', ""), (code 'l', ""), (code 'H', "")] (by decide)

/-- C9 (evaluated at the failing input, no options): `parse_opts` leaves the
globals at their initial values; mode is 0, bits-per-word 8, speed 500000 and
delay 0, but the device path is "/dev/spidev1.0", not the "/dev/spidev1.1"
that the usage text gives as the default, and that is the path `main` opens. -/
theorem C9_default_device_differs :
    parse_opts "transfer" [] init = Step.next init ∧
    init.mode = 0 ∧ init.bits = 8 ∧ init.speed = 500000 ∧ init.delay = 0 ∧
    init.device = "/dev/spidev1.0" ∧ init.device ≠ "/dev/spidev1.1" ∧
    "  -D --device   device to use (default /dev/spidev1.1)\n".toList <+: usage_text.toList ∧
    (main "transfer" [] okDriver).trace.head? = some (Event.openDev "/dev/spidev1.0" 3) := by
  decide

/-! ## Claim about `main` (lines 182-235) -/

theorem parse_opts_trace (prog : String) (opts : List (Int × String)) :
    ∀ s : State,
      (∀ s1, parse_opts prog opts s = Step.next s1 → s1.trace = s.trace) ∧
      (∀ r, parse_opts prog opts s = Step.stop r →
        r = { trace := s.trace ++
                [Event.printf "Usage: %s [-DsbdlHOLC3]\n" [Arg.str prog], Event.puts usage_text],
              status := Status.exited 1 }) := by
  induction opts with
  | nil =>
    intro s
    simp [parse_opts]
  | cons p rest ih =>
    obtain ⟨c, optarg⟩ := p
    intro s
    rcases parse_opts_cons_cases prog c optarg rest s with ⟨_, h⟩ | ⟨_, _, s1, h, ht⟩ | ⟨_, _, h⟩
    · rw [h]
      simp
    · rw [h, ← ht]
      exact ih s1
    · rw [h]
      simp [print_usage]

theorem transfer_tx_200 :
    transfer_tx 200 =
      { value := 4000,
        out := [Event.printf "\n\rSetting loop current = %.1f mA\n\r" [Arg.quot 200 10]],
        tx := [0x3F, 0xA0] } := by
  decide

theorem transfer_stop_inv (S : Nat) (drv : Driver) (fd : Int) (s : State) (r : Run)
    (h : transfer S drv fd s = Step.stop r) :
    (drv.ioctl fd (transfer_request S s)).1 < 1 ∧
    r = { trace := s.trace ++ (transfer_tx S).out ++
            [Event.ioctl fd (transfer_request S s) (drv.ioctl fd (transfer_request S s)).1,
             Event.perror "can't send spi message"],
          status := Status.aborted } := by
  by_cases hr : (drv.ioctl fd (transfer_request S s)).1 < 1
  · rw [transfer_fail S drv fd s hr] at h
    exact ⟨hr, (Step.stop.inj h).symm⟩
  · rw [transfer_ok S drv fd s (not_lt.mp hr)] at h
    exact absurd h (by simp)

theorem transfer_next_inv (S : Nat) (drv : Driver) (fd : Int) (s s1 : State)
    (h : transfer S drv fd s = Step.next s1) :
    1 ≤ (drv.ioctl fd (transfer_request S s)).1 ∧
    s1.trace = s.trace ++ (transfer_tx S).out ++
      [Event.ioctl fd (transfer_request S s) (drv.ioctl fd (transfer_request S s)).1,
       Event.printf "\n\rSending:" []] ++ print_tx (transfer_tx S).tx 0 ++ [Event.puts ""] := by
  by_cases hr : (drv.ioctl fd (transfer_request S s)).1 < 1
  · rw [transfer_fail S drv fd s hr] at h
    exact absurd h (by simp)
  · rw [transfer_ok S drv fd s (not_lt.mp hr)] at h
    refine ⟨not_lt.mp hr, ?_⟩
    rw [← Step.next.inj h]

theorem ends_with (l : List Event) (a b : Event)
    (h : l.reverse.take 2 = [b, a]) : ∃ pre, l = pre ++ [a, b] := by
  refine ⟨(l.reverse.drop 2).reverse, ?_⟩
  have h2 := List.take_append_drop 2 l.reverse
  rw [h] at h2
  have h3 := congrArg List.reverse h2
  rw [List.reverse_reverse] at h3
  rw [← h3]
  simp

set_option maxHeartbeats 1600000 in
theorem main_fail_fast (prog : String) (opts : List (Int × String)) (drv : Driver) :
    FailFast (main prog opts drv) := by
  rcases hp : parse_opts prog opts init with s | r
  · have ht : s.trace = [] := (parse_opts_trace prog opts init).1 s hp
    simp only [main, main_with, hp, State.emit, pabort, ht, List.nil_append]
    split_ifs with h1 h2 h3 h4 h5 h6 h7
    · simp [FailFast, calls, Event.call, config_failed, call_order, context, h1]
    · simp [FailFast, calls, Event.call, config_failed, call_order, context, h1, h2]
    · simp [FailFast, calls, Event.call, config_failed, call_order, context, h1, h2, h3]
    · simp [FailFast, calls, Event.call, config_failed, call_order, context, h1, h2, h3, h4]
    · simp [FailFast, calls, Event.call, config_failed, call_order, context, h1, h2, h3, h4, h5]
    · simp [FailFast, calls, Event.call, config_failed, call_order, context, h1, h2, h3, h4, h5, h6]
    · simp [FailFast, calls, Event.call, config_failed, call_order, context, h1, h2, h3, h4, h5, h6, h7]
    · split
      · rename_i r heq
        obtain ⟨-, rfl⟩ := transfer_stop_inv _ _ _ _ _ heq
        simp [FailFast, calls, Event.call, config_failed, call_order, context, transfer_tx_200,
          transfer_request, h1, h2, h3, h4, h5, h6, h7]
      · rename_i s1 heq
        obtain ⟨-, hs1⟩ := transfer_next_inv _ _ _ _ _ heq
        simp [FailFast, calls, Event.call, config_failed, call_order, context, transfer_tx_200,
          transfer_request, print_tx, hs1, h1, h2, h3, h4, h5, h6, h7]
  · have hr := (parse_opts_trace prog opts init).2 r hp
    simp only [main, main_with, hp]
    rw [hr]
    simp [FailFast, calls, Event.call, config_failed, call_order, init]

theorem main_opens (prog : String) (opts : List (Int × String)) (drv : Driver) (s : State)
    (hp : parse_opts prog opts init = Step.next s) :
    Call.openDev ∈ calls (main prog opts drv).trace := by
  have ht : s.trace = [] := (parse_opts_trace prog opts init).1 s hp
  have key : ∀ t : List Event,
      Call.openDev ∈ calls (Event.openDev s.device (drv.openDev s.device) :: t) := by
    intro t
    simp [calls, Event.call]
  simp only [main, main_with, hp, State.emit, pabort, ht, List.nil_append]
  split_ifs
  · exact key _
  · exact key _
  · exact key _
  · exact key _
  · exact key _
  · exact key _
  · exact key _
  · split
    · rename_i r heq
      obtain ⟨-, rfl⟩ := transfer_stop_inv _ _ _ _ _ heq
      simp [calls, Event.call]
    · rename_i s1 heq
      obtain ⟨-, hs1⟩ := transfer_next_inv _ _ _ _ _ heq
      simp [calls, Event.call, hs1]

/-- C6: for every option list and every driver, (1) if the open fails, `main`
makes that single call, reports "can't open device" and aborts; (2) the device
calls of the run are an initial part of open, write/read mode, write/read
bits-per-word, write/read max speed, transfer, close; (3) whenever the open
or one of the six control requests fails, the run ends right after it with
`perror` of that step's context string and `abort`, so no later device call
is made; (4) a transfer request in the run implies that no configuration step
failed and that the open and the six requests preceded it in that order;
(5) when the options parse and no step fails, the transfer request is made. -/
theorem C6_fail_fast (prog : String) (opts : List (Int × String)) (drv : Driver) :
    (∀ s, parse_opts prog opts init = Step.next s → drv.openDev s.device < 0 →
      main prog opts drv =
        { trace := [Event.openDev s.device (drv.openDev s.device),
                    Event.perror "can't open device"],
          status := Status.aborted }) ∧
    calls (main prog opts drv).trace <+: call_order ∧
    (∀ e ∈ (main prog opts drv).trace, config_failed e = true →
      (main prog opts drv).status = Status.aborted ∧
      ∃ c pre, e.call = some c ∧
        (main prog opts drv).trace = pre ++ [e, Event.perror (context c)]) ∧
    (Call.message ∈ calls (main prog opts drv).trace →
      (∀ e ∈ (main prog opts drv).trace, config_failed e = false) ∧
      [Call.openDev, Call.wr_mode, Call.rd_mode, Call.wr_bits, Call.rd_bits, Call.wr_speed,
        Call.rd_speed, Call.message] <+: calls (main prog opts drv).trace) ∧
    (∀ s, parse_opts prog opts init = Step.next s →
      (∀ e ∈ (main prog opts drv).trace, config_failed e = false) →
      Call.message ∈ calls (main prog opts drv).trace) := by
  obtain ⟨h1, h2, h3, h4⟩ := main_fail_fast prog opts drv
  refine ⟨?_, h1, ?_, h3, ?_⟩
  · intro s hp hfd
    have ht : s.trace = [] := (parse_opts_trace prog opts init).1 s hp
    simp only [main, main_with, hp, State.emit, pabort, ht, List.nil_append, if_pos hfd]
    rfl
  · intro e he hf
    obtain ⟨hst, c, hc, hend⟩ := h2 e he hf
    obtain ⟨pre, hpre⟩ := ends_with _ _ _ hend
    exact ⟨hst, c, pre, hc, hpre⟩
  · intro s hp hok
    exact h4 hok (main_opens prog opts drv s hp)

/-- C6 on a driver whose bits-per-word read-back fails: the run aborts right
after that request with "can't get bits per word". -/
theorem C6_fail_fast_witness :
    (main "transfer" [] failDriver).status = Status.aborted ∧
    ∃ pre, (main "transfer" [] failDriver).trace =
      pre ++ [Event.ioctl 3 (Request.RD_BITS_PER_WORD 8) (-1),
              Event.perror "can't get bits per word"] := by
  obtain ⟨hst, c, pre, hc, htr⟩ :=
    (C6_fail_fast "transfer" [] failDriver).2.2.1
      (Event.ioctl 3 (Request.RD_BITS_PER_WORD 8) (-1)) (by decide) (by decide)
  have hcc : c = Call.rd_bits := by
    simp only [Event.call, Option.some.injEq] at hc
    exact hc.symm
  subst hcc
  exact ⟨hst, pre, htr⟩

end SpiTransfer
